import Mathlib

/-!
Verification of the conversation-session state machine of the Revolt Motors
voice-assistant server (`src/server.js`).

The server keeps, per WebSocket connection, an entry in the module-level map
`activeConnections` holding the mutable flags `isListening`, `isSpeaking` and
the nullable fields `chat` and `model` (`server.js` lines 51-57, 117-121).
Inbound frames are JSON objects dispatched on their `type` field by the
`ws.on('message')` handler (lines 59-91); outbound frames are sent with
`ws.send` and are modelled below by the `Out` type.

Asynchrony is modelled by splitting each `async` handler at its `await`
points: the synchronous prefix up to the provider call (`..._pre`), and the
continuations that run when the provider promise resolves (`..._onReply`) or
rejects (`..._onError`).  A complete uninterleaved execution of a handler is
the `..._run` function, parameterised by the provider outcome.
-/

/-- Outbound frame types sent by `server.js` via `ws.send`.  `aiResponse`
carries an abstract turn identifier standing for the `text`/`transcription`
payload, so that a reply can be traced back to the user turn that produced
it.  The spec's outbound tag `interrupted` corresponds to the frame
`{type:'natural_interrupt'}` sent at `server.js` lines 180-183; the frame
`{type:'interrupted'}` of the never-invoked `handleInterrupt` is
`interruptedFrame`. -/
inductive Out where
  | conversationStarted
  | aiResponse (turnId : Nat)
  | aiFinishedSpeaking
  | naturalInterrupt
  | interruptedFrame
  | readyForInput
  | conversationEnded
  | errorMsg
deriving DecidableEq, Repr

/-- The per-connection record stored in `activeConnections` (`server.js`
lines 56-57 and 117-121).  `hasChat` and `hasModel` record whether the
nullable fields `chat` and `model` are set (non-null). -/
structure Conn where
  isListening : Bool
  isSpeaking : Bool
  hasChat : Bool
  hasModel : Bool
deriving DecidableEq, Repr

/-- The entry created on connect: `{ ws, isListening: false }`
(`server.js` line 57); `chat`, `model`, `isSpeaking` are absent (falsy). -/
def initialConn : Conn :=
  { isListening := false, isSpeaking := false, hasChat := false, hasModel := false }

/-- Outcome of an awaited provider call (`connection.chat.sendMessage`):
the promise resolves with a reply, or rejects. -/
inductive ProviderOutcome where
  | ok
  | err
deriving DecidableEq, Repr

/-- Number of `error` frames in an outbound trace. -/
def countErrors : List Out → Nat
  | [] => 0
  | Out.errorMsg :: rest => countErrors rest + 1
  | _ :: rest => countErrors rest

/-- Number of `natural_interrupt` frames in an outbound trace. -/
def countInterrupts : List Out → Nat
  | [] => 0
  | Out.naturalInterrupt :: rest => countInterrupts rest + 1
  | _ :: rest => countInterrupts rest

/-- Number of `conversation_ended` frames in an outbound trace. -/
def countEnded : List Out → Nat
  | [] => 0
  | Out.conversationEnded :: rest => countEnded rest + 1
  | _ :: rest => countEnded rest

/-- Whether an outbound trace contains any `ai_response` frame. -/
def hasAiResponse : List Out → Bool
  | [] => false
  | Out.aiResponse _ :: _ => true
  | _ :: rest => hasAiResponse rest

/-- Synchronous prefix of `handleAudioData` (`server.js` lines 165-199) up to
the awaited provider call `connection.chat.sendMessage`: the registry lookup,
the no-active-conversation guard (lines 169-175), the natural-interruption
branch (lines 177-184, which clears `isSpeaking` and sends
`natural_interrupt`), and the dispatch itself.  Returns the updated registry
entry, the frames sent so far, and whether a provider call was dispatched.
Note that `connection.isSpeaking = true` is only executed at line 205,
after the `await` of line 199, so it is not part of this prefix. -/
def handleAudioData_pre (conn : Option Conn) : Option Conn × List Out × Bool :=
  match conn with
  | none => (none, [Out.errorMsg], false)
  | some c =>
    if !c.hasChat then
      (some c, [Out.errorMsg], false)
    else if c.isSpeaking then
      (some { c with isSpeaking := false }, [Out.naturalInterrupt], true)
    else
      (some c, [], true)

/-- Continuation of `handleAudioData` after the provider promise resolves
(`server.js` lines 200-224): set `connection.isSpeaking = true` and send the
`ai_response` frame for the reply.  The code performs no comparison between
the reply and the current turn: the frame is sent unconditionally.  The
mutation applies to whatever the captured connection object holds at reply
time, so the continuation is a function of the current entry. -/
def handleAudioData_onReply (conn : Option Conn) (turnId : Nat) :
    Option Conn × List Out :=
  match conn with
  | none => (none, [Out.aiResponse turnId])
  | some c => (some { c with isSpeaking := true }, [Out.aiResponse turnId])

/-- Continuation of `handleAudioData` when the provider promise rejects: the
`catch` block (`server.js` lines 226-232) sends one `error` frame and touches
no connection state; the turn is not re-dispatched. -/
def handleAudioData_onError (conn : Option Conn) : Option Conn × List Out :=
  (conn, [Out.errorMsg])

/-- A complete execution of `handleAudioData` for one `audio_data` frame with
no other event interleaved: the synchronous prefix, then, if a provider call
was dispatched, the resolve or reject continuation according to `o`. -/
def handleAudioData_run (conn : Option Conn) (o : ProviderOutcome) (turnId : Nat) :
    Option Conn × List Out :=
  match handleAudioData_pre conn with
  | (c1, out1, true) =>
    match o with
    | ProviderOutcome.ok =>
      match handleAudioData_onReply c1 turnId with
      | (c2, out2) => (c2, out1 ++ out2)
    | ProviderOutcome.err =>
      match handleAudioData_onError c1 with
      | (c2, out2) => (c2, out1 ++ out2)
  | (c1, out1, false) => (c1, out1)

/-- A started, currently listening connection: the state after
`handleStartConversation` completed and the greeting timer fired. -/
def activeConn : Conn :=
  { isListening := true, isSpeaking := false, hasChat := true, hasModel := true }

/-- A started connection while the assistant is speaking. -/
def speakingConn : Conn :=
  { isListening := true, isSpeaking := true, hasChat := true, hasModel := true }

example : handleAudioData_pre (some activeConn) = (some activeConn, [], true) := by decide

example : handleAudioData_run (some speakingConn) ProviderOutcome.ok 7 =
    (some speakingConn, [Out.naturalInterrupt, Out.aiResponse 7]) := by decide

/-- Synchronous prefix of `handleStartConversation` (`server.js` lines
104-137) up to the awaited greeting call `connection.chat.sendMessage`: the
model and chat are created and stored, `isListening` is set, the
`conversation_started` frame is sent (lines 123-126), and `isSpeaking` is set
for the greeting (line 129) before the `await` at line 137.  If the registry
entry is absent, the assignment `connection.model = model` throws and the
`catch` (lines 156-162) sends one `error` frame. -/
def handleStartConversation_pre (conn : Option Conn) : Option Conn × List Out × Bool :=
  match conn with
  | none => (none, [Out.errorMsg], false)
  | some _ =>
    (some { isListening := true, isSpeaking := true, hasChat := true, hasModel := true },
     [Out.conversationStarted], true)

/-- A complete execution of `handleStartConversation`: after the greeting
promise resolves, the greeting `ai_response` frame is sent (lines 139-143);
if it rejects, the `catch` sends one `error` frame. -/
def handleStartConversation_run (conn : Option Conn) (o : ProviderOutcome) (turnId : Nat) :
    Option Conn × List Out :=
  match handleStartConversation_pre conn with
  | (c1, out1, true) =>
    match o with
    | ProviderOutcome.ok => (c1, out1 ++ [Out.aiResponse turnId])
    | ProviderOutcome.err => (c1, out1 ++ [Out.errorMsg])
  | (c1, out1, false) => (c1, out1)

/-- The speaking timer scheduled after each reply (`server.js` lines 147-154
and 217-224): when it fires, if the connection is still marked speaking it
clears `isSpeaking` and sends `ai_finished_speaking`; otherwise it does
nothing. -/
def speakingTimerFire (conn : Option Conn) : Option Conn × List Out :=
  match conn with
  | none => (none, [])
  | some c =>
    if c.isSpeaking then
      (some { c with isSpeaking := false }, [Out.aiFinishedSpeaking])
    else
      (some c, [])

/-- `handleEndConversation` (`server.js` lines 284-302): if the registry
entry exists, `isListening` is cleared and `chat` and `model` are set to
null; the `conversation_ended` frame is then sent unconditionally (lines
294-297).  The entry is not removed from `activeConnections`, and no guard
checks whether the conversation had already ended. -/
def handleEndConversation (conn : Option Conn) : Option Conn × List Out :=
  match conn with
  | none => (none, [Out.conversationEnded])
  | some c =>
    (some { c with isListening := false, hasChat := false, hasModel := false },
     [Out.conversationEnded])

/-- `handleInterrupt` (`server.js` lines 255-282).  This function is defined
but never invoked: the message handler's `natural_interrupt` case at line 74
calls `handleNaturalInterrupt`, a name that is not defined anywhere in
`server.js`.  Modelled for completeness: it clears `isListening`, sends
`interrupted`, and schedules a timer (`handleInterrupt_timerFire`); it never
touches `isSpeaking` and never dispatches a provider call. -/
def handleInterrupt (conn : Option Conn) : Option Conn × List Out :=
  match conn with
  | none => (none, [])
  | some c => (some { c with isListening := false }, [Out.interruptedFrame])

/-- The 500ms timer scheduled by `handleInterrupt` (`server.js` lines
269-277): restore `isListening` and send `ready_for_input` if the entry is
still registered. -/
def handleInterrupt_timerFire (conn : Option Conn) : Option Conn × List Out :=
  match conn with
  | none => (none, [])
  | some c => (some { c with isListening := true }, [Out.readyForInput])

/-- The recognized values of the inbound `type` field, plus `unknown` for any
other value (the `default` case of the switch at `server.js` lines 81-83). -/
inductive InTag where
  | startConversation
  | audioData
  | naturalInterrupt
  | endConversation
  | unknown
deriving DecidableEq, Repr

/-- An inbound WebSocket message: either text that `JSON.parse` rejects, or a
parsed object dispatched on its `type` field. -/
inductive RawMsg where
  | malformed
  | tagged (t : InTag)
deriving DecidableEq, Repr

/-- `JSON.parse(message)` at `server.js` line 61: a malformed frame throws
(modelled as `Except.error`), otherwise the tag is extracted. -/
def parseMessage : RawMsg → Except Unit InTag
  | RawMsg.malformed => Except.error ()
  | RawMsg.tagged t => Except.ok t

/-- The switch body of the message handler (`server.js` lines 64-83),
dispatching one parsed frame.  The `natural_interrupt` case (line 74) calls
`handleNaturalInterrupt`, which is not defined in `server.js` (only
`handleInterrupt` exists and is never referenced), so evaluating that case
throws a `ReferenceError`, modelled as `Except.error`.  The `default` case
only logs and sends nothing.  `o` and `turnId` parameterise the provider
outcome and reply identity for the cases that call the provider. -/
def dispatchTag (conn : Option Conn) (t : InTag) (o : ProviderOutcome) (turnId : Nat) :
    Except Unit (Option Conn × List Out) :=
  match t with
  | InTag.startConversation => Except.ok (handleStartConversation_run conn o turnId)
  | InTag.audioData => Except.ok (handleAudioData_run conn o turnId)
  | InTag.naturalInterrupt => Except.error ()
  | InTag.endConversation => Except.ok (handleEndConversation conn)
  | InTag.unknown => Except.ok (conn, [])

/-- A complete processing of one inbound frame by the `ws.on('message')`
handler (`server.js` lines 59-91), including the continuations of any
provider call it dispatches.  Everything runs inside the handler's
`try`/`catch`: a `JSON.parse` failure or an exception escaping the switch
(the `handleNaturalInterrupt` `ReferenceError`) reaches the `catch` (lines
84-90), which sends exactly one `error` frame, leaves the registry entry
untouched, and does not rethrow or close the socket. -/
def onMessage (conn : Option Conn) (raw : RawMsg) (o : ProviderOutcome) (turnId : Nat) :
    Option Conn × List Out :=
  match parseMessage raw with
  | Except.error _ => (conn, [Out.errorMsg])
  | Except.ok t =>
    match dispatchTag conn t o turnId with
    | Except.error _ => (conn, [Out.errorMsg])
    | Except.ok r => r

example : onMessage (some activeConn) (RawMsg.tagged InTag.endConversation)
    ProviderOutcome.ok 0 =
    (some { activeConn with isListening := false, hasChat := false, hasModel := false },
     [Out.conversationEnded]) := by decide

/-- Lifecycle events of one connection, as seen by the registry code:
`connect` is the `wss.on('connection')` callback, `close` and `wsError` are
the transport handlers at `server.js` lines 93-101, `endMsg` is an inbound
`end_conversation` frame, and `otherMsg` is any other inbound frame (none of
which touches the registry). -/
inductive ConnEvent where
  | connect
  | close
  | wsError
  | endMsg
  | otherMsg
deriving DecidableEq, Repr

/-- Registry-relevant observables of one connection: whether the transport
is open, whether `activeConnections` holds an entry for its id, and whether
the client has sent `end_conversation`. -/
structure ConnLife where
  isOpen : Bool
  inRegistry : Bool
  sentEnd : Bool
deriving DecidableEq, Repr

/-- Before the connection is established. -/
def lifeInit : ConnLife := { isOpen := false, inRegistry := false, sentEnd := false }

/-- Effect of one lifecycle event on the registry observables, read off the
handlers of `server.js`: `connect` runs `activeConnections.set` (line 57);
`close` and `wsError` run `activeConnections.delete` (lines 95 and 100);
`handleEndConversation` (lines 284-302) nulls fields inside the entry but
performs no `delete`, so `endMsg` leaves `inRegistry` unchanged. -/
def lifeStep (s : ConnLife) : ConnEvent → ConnLife
  | ConnEvent.connect => { isOpen := true, inRegistry := true, sentEnd := false }
  | ConnEvent.close => { s with isOpen := false, inRegistry := false }
  | ConnEvent.wsError => { s with inRegistry := false }
  | ConnEvent.endMsg => { s with sentEnd := true }
  | ConnEvent.otherMsg => s

/-- State of one connection after a sequence of lifecycle events. -/
def lifeRun (evs : List ConnEvent) : ConnLife :=
  evs.foldl lifeStep lifeInit

/-- The invariant in the spec's words (§3, Connection Registry entry): "a
registry entry exists if and only if its connection is open and has not sent
end".  Stated separately from the code model so the two can be compared. -/
def registrySpecInvariant (s : ConnLife) : Prop :=
  s.inRegistry = (s.isOpen && !s.sentEnd)

instance (s : ConnLife) : Decidable (registrySpecInvariant s) := by
  unfold registrySpecInvariant
  infer_instance

example : lifeRun [ConnEvent.connect, ConnEvent.endMsg] =
    { isOpen := true, inRegistry := true, sentEnd := true } := by decide

/-- C1 counterexample: from a started, listening connection, `handleAudioData`
dispatches a provider call (first conjunct) but the state at the moment of
dispatch is not Speaking (`isSpeaking` is still `false`, second conjunct,
because `connection.isSpeaking = true` only runs at `server.js` line 205,
after the `await`); consequently a second `user_turn` arriving before the
reply is processed with `isSpeaking = false` and emits no interruption frame
(third conjunct), contrary to the claim. -/
theorem C1_counterexample :
    (handleAudioData_pre (some activeConn)).2.2 = true ∧
    ¬ ((handleAudioData_pre (some activeConn)).1.map Conn.isSpeaking = some true) ∧
    countInterrupts (handleAudioData_pre (handleAudioData_pre (some activeConn)).1).2.1 = 0 := by
  decide

/-- C1 amended: for every active connection, dispatching a `user_turn` leaves
`isSpeaking = false` during the in-flight window (the flag is set only in the
reply continuation), so a second `user_turn` arriving before the reply is
evaluated against the non-speaking state: it emits no interruption frame and
instead dispatches its own, concurrent provider call. -/
theorem C1_amended_thm (c : Conn) (h : c.hasChat = true) :
    (handleAudioData_pre (some c)).2.2 = true ∧
    (handleAudioData_pre (some c)).1.map Conn.isSpeaking = some false ∧
    (handleAudioData_pre (handleAudioData_pre (some c)).1).2.1 = [] ∧
    (handleAudioData_pre (handleAudioData_pre (some c)).1).2.2 = true := by
  obtain ⟨l, sp, ch, m⟩ := c
  cases l <;> cases sp <;> cases ch <;> cases m <;> revert h <;> decide

/-- C1 witness: the amended theorem evaluated on the started, listening
connection. -/
theorem C1_amended_witness :
    activeConn.hasChat = true ∧
    ((handleAudioData_pre (some activeConn)).2.2 = true ∧
     (handleAudioData_pre (some activeConn)).1.map Conn.isSpeaking = some false ∧
     (handleAudioData_pre (handleAudioData_pre (some activeConn)).1).2.1 = [] ∧
     (handleAudioData_pre (handleAudioData_pre (some activeConn)).1).2.2 = true) :=
  ⟨rfl, C1_amended_thm activeConn rfl⟩

/-- C2 counterexample: turn 0 is dispatched from a started, listening
connection; before its reply arrives, a second `user_turn` (turn 1) is
dispatched, superseding it; when turn 0's provider reply then resolves, the
continuation nevertheless sends `ai_response` for turn 0 — the stale reply is
delivered, not dropped. -/
theorem C2_counterexample :
    (handleAudioData_pre (some activeConn)).2.2 = true ∧
    (handleAudioData_pre (handleAudioData_pre (some activeConn)).1).2.2 = true ∧
    (handleAudioData_onReply
       (handleAudioData_pre (handleAudioData_pre (some activeConn)).1).1 0).2
      = [Out.aiResponse 0] := by
  decide

/-- C2 amended: the reply continuation of `handleAudioData` performs no
staleness check: for every active connection on which turns `a` and then `b`
are dispatched (the second before the first's reply), delivering the two
replies produces an `ai_response` frame for each of them — including the
superseded turn `a`. -/
theorem C2_amended_thm (c : Conn) (h : c.hasChat = true) (a b : Nat) :
    (handleAudioData_pre (some c)).2.2 = true ∧
    (handleAudioData_pre (handleAudioData_pre (some c)).1).2.2 = true ∧
    (handleAudioData_onReply
       (handleAudioData_pre (handleAudioData_pre (some c)).1).1 a).2
      = [Out.aiResponse a] ∧
    (handleAudioData_onReply
       (handleAudioData_onReply
          (handleAudioData_pre (handleAudioData_pre (some c)).1).1 a).1 b).2
      = [Out.aiResponse b] := by
  obtain ⟨l, sp, ch, m⟩ := c
  cases ch
  · simp at h
  · cases sp <;>
      simp [handleAudioData_pre, handleAudioData_onReply]

/-- C2 witness: the amended theorem evaluated on the started, listening
connection with turn identifiers 0 and 1. -/
theorem C2_amended_witness :
    activeConn.hasChat = true ∧
    ((handleAudioData_pre (some activeConn)).2.2 = true ∧
     (handleAudioData_pre (handleAudioData_pre (some activeConn)).1).2.2 = true ∧
     (handleAudioData_onReply
        (handleAudioData_pre (handleAudioData_pre (some activeConn)).1).1 0).2
       = [Out.aiResponse 0] ∧
     (handleAudioData_onReply
        (handleAudioData_onReply
           (handleAudioData_pre (handleAudioData_pre (some activeConn)).1).1 0).1 1).2
       = [Out.aiResponse 1]) :=
  ⟨rfl, C2_amended_thm activeConn rfl 0 1⟩

/-- C3 confirmed: for every `user_turn` processed while the connection is
marked speaking, the complete handler execution emits exactly one
interruption frame, as the head of the outbound trace — before the
`ai_response` for the new turn when the provider resolves, and before the
`error` frame when it rejects.  The interruption frame is sent synchronously
before the provider dispatch (`server.js` lines 178-184), so no interleaved
reply can precede it. -/
theorem C3_thm (c : Conn) (h1 : c.hasChat = true) (h2 : c.isSpeaking = true)
    (o : ProviderOutcome) (tid : Nat) :
    (handleAudioData_run (some c) o tid).2 =
      Out.naturalInterrupt ::
        (match o with
         | ProviderOutcome.ok => [Out.aiResponse tid]
         | ProviderOutcome.err => [Out.errorMsg]) := by
  obtain ⟨l, sp, ch, m⟩ := c
  cases ch
  · simp at h1
  · cases sp
    · simp at h2
    · cases o <;>
        simp [handleAudioData_run, handleAudioData_pre, handleAudioData_onReply,
          handleAudioData_onError]

/-- C3 witness: the theorem evaluated on the speaking connection with a
resolving provider call for turn 0. -/
theorem C3_witness :
    speakingConn.hasChat = true ∧ speakingConn.isSpeaking = true ∧
    (handleAudioData_run (some speakingConn) ProviderOutcome.ok 0).2
      = [Out.naturalInterrupt, Out.aiResponse 0] :=
  ⟨rfl, rfl, C3_thm speakingConn rfl rfl ProviderOutcome.ok 0⟩

/-- C4 counterexample: from a started connection, processing `end` twice in a
row (the second after the first completed) emits `conversation_ended` both
times — two ended frames in total and no `error` frame for the second,
because `handleEndConversation` sends its acknowledgment unconditionally and
never checks whether the conversation had already ended. -/
theorem C4_counterexample :
    countEnded ((handleEndConversation (some activeConn)).2
      ++ (handleEndConversation (handleEndConversation (some activeConn)).1).2) = 2 ∧
    countErrors ((handleEndConversation (some activeConn)).2
      ++ (handleEndConversation (handleEndConversation (some activeConn)).1).2) = 0 := by
  decide

/-- C4 amended: for every registered connection, each `end` emits exactly one
`conversation_ended` frame and no `error` frame, so a second `end` yields a
second ended acknowledgment rather than a protocol error; after an `end`
(which nulls `chat`), an inbound `user_turn` is reported via a single `error`
frame, with the registry entry unchanged and no provider call dispatched. -/
theorem C4_amended_thm (c : Conn) :
    (handleEndConversation (some c)).2 = [Out.conversationEnded] ∧
    (handleEndConversation (handleEndConversation (some c)).1).2
      = [Out.conversationEnded] ∧
    (handleAudioData_pre (handleEndConversation (some c)).1).2.1 = [Out.errorMsg] ∧
    (handleAudioData_pre (handleEndConversation (some c)).1).1
      = (handleEndConversation (some c)).1 ∧
    (handleAudioData_pre (handleEndConversation (some c)).1).2.2 = false := by
  simp [handleEndConversation, handleAudioData_pre]

/-- C5 counterexample: after the trace connect, `end_conversation` the
connection is open and has sent `end`, yet the registry entry still exists —
`handleEndConversation` never calls `activeConnections.delete` — so the
spec's invariant "a registry entry exists if and only if its connection is
open and has not sent end" fails. -/
theorem C5_counterexample :
    ¬ registrySpecInvariant (lifeRun [ConnEvent.connect, ConnEvent.endMsg]) := by
  decide

/-- C5 amended: the registry entry is created on connect and removed exactly
by the transport `close` and `error` handlers; an `end` frame leaves both the
entry and the transport state unchanged.  Moreover, on every reachable state
(every event trace from the initial state) an existing entry implies the
connection is open. -/
theorem C5_amended_thm :
    (∀ s : ConnLife,
      (lifeStep s ConnEvent.connect).inRegistry = true ∧
      (lifeStep s ConnEvent.close).inRegistry = false ∧
      (lifeStep s ConnEvent.wsError).inRegistry = false ∧
      (lifeStep s ConnEvent.endMsg).inRegistry = s.inRegistry ∧
      (lifeStep s ConnEvent.endMsg).isOpen = s.isOpen) ∧
    (∀ evs : List ConnEvent,
      (lifeRun evs).inRegistry = true → (lifeRun evs).isOpen = true) := by
  constructor
  · intro s
    simp [lifeStep]
  · intro evs
    have aux : ∀ (l : List ConnEvent) (s : ConnLife),
        (s.inRegistry = true → s.isOpen = true) →
        ((l.foldl lifeStep s).inRegistry = true → (l.foldl lifeStep s).isOpen = true) := by
      intro l
      induction l with
      | nil => intro s hs; simpa using hs
      | cons e rest ih =>
        intro s hs
        simp only [List.foldl_cons]
        apply ih
        cases e <;> simp [lifeStep] <;> exact hs
    exact aux evs lifeInit (by decide)

/-- C5 witness: the amended theorem's reachable-state invariant evaluated on
the trace consisting of a single connect event. -/
theorem C5_amended_witness :
    (lifeRun [ConnEvent.connect]).inRegistry = true ∧
    (lifeRun [ConnEvent.connect]).isOpen = true :=
  ⟨by decide, C5_amended_thm.2 [ConnEvent.connect] (by decide)⟩

/-- C6 confirmed: a `user_turn` (`audio_data` frame) received before `start`
has been processed — the registry entry exists with `chat` unset, or the
entry is absent — makes `handleAudioData` emit exactly one `error` frame,
dispatch no provider call, and leave the state unchanged. -/
theorem C6_thm (c : Conn) (h : c.hasChat = false) :
    handleAudioData_pre (some c) = (some c, [Out.errorMsg], false) ∧
    handleAudioData_pre none = (none, [Out.errorMsg], false) := by
  constructor
  · simp [handleAudioData_pre, h]
  · rfl

/-- C6 witness: the theorem evaluated on the freshly connected entry
(`isListening = false`, no chat). -/
theorem C6_witness :
    initialConn.hasChat = false ∧
    (handleAudioData_pre (some initialConn) = (some initialConn, [Out.errorMsg], false) ∧
     handleAudioData_pre none = (none, [Out.errorMsg], false)) :=
  ⟨rfl, C6_thm initialConn rfl⟩

/-- C7 counterexample: an inbound frame with an unrecognized tag on a started
connection produces no outbound frame at all — the switch's `default` case
only logs — so no `error` event is emitted, contrary to the claim. -/
theorem C7_counterexample :
    onMessage (some activeConn) (RawMsg.tagged InTag.unknown) ProviderOutcome.ok 0
      = (some activeConn, []) := by
  decide

/-- C7 amended: a malformed frame (one `JSON.parse` rejects) makes the
message handler's `catch` emit exactly one `error` frame with the registry
entry unchanged, while a well-formed frame with an unrecognized tag is
silently ignored (no outbound frame), also with the entry unchanged; in
neither case does the handler close the connection (the handler contains no
close call, and the registry model removes entries only on transport
close/error events). -/
theorem C7_amended_thm (conn : Option Conn) (o : ProviderOutcome) (tid : Nat) :
    onMessage conn RawMsg.malformed o tid = (conn, [Out.errorMsg]) ∧
    onMessage conn (RawMsg.tagged InTag.unknown) o tid = (conn, []) := by
  constructor <;> rfl

/-- C8 code bug: the message handler's `natural_interrupt` case (`server.js`
line 74) calls `handleNaturalInterrupt`, a name defined nowhere in
`server.js` (the interrupt logic lives in `handleInterrupt`, lines 255-282,
which is never referenced).  Dispatching an `interrupt` frame therefore
throws a `ReferenceError` (first conjunct), which the handler's `catch`
converts into a single `error` frame with the state unchanged — from both the
listening and the speaking state no `interrupted` frame is emitted and no
transition to Listening occurs (second and third conjuncts), contrary to the
claim, which matches the intended `handleInterrupt`. -/
theorem C8_thm :
    dispatchTag (some activeConn) InTag.naturalInterrupt ProviderOutcome.ok 0
      = Except.error () ∧
    onMessage (some activeConn) (RawMsg.tagged InTag.naturalInterrupt)
      ProviderOutcome.ok 0 = (some activeConn, [Out.errorMsg]) ∧
    onMessage (some speakingConn) (RawMsg.tagged InTag.naturalInterrupt)
      ProviderOutcome.ok 0 = (some speakingConn, [Out.errorMsg]) :=
  ⟨rfl, rfl, rfl⟩

/-- C9 confirmed: when the provider call for a `user_turn` rejects (including
timeouts surfaced as rejections), the complete handler execution emits
exactly one `error` frame and no `ai_response`, and the final state is the
original entry with `isSpeaking = false` — chat and `isListening` intact, so
the session is listening and the user can retry; the `catch` block dispatches
nothing, so the turn is not resubmitted. -/
theorem C9_thm (c : Conn) (h : c.hasChat = true) (tid : Nat) :
    (handleAudioData_run (some c) ProviderOutcome.err tid).1
      = some { c with isSpeaking := false } ∧
    countErrors (handleAudioData_run (some c) ProviderOutcome.err tid).2 = 1 ∧
    hasAiResponse (handleAudioData_run (some c) ProviderOutcome.err tid).2 = false := by
  obtain ⟨l, sp, ch, m⟩ := c
  cases ch
  · simp at h
  · cases sp <;>
      simp [handleAudioData_run, handleAudioData_pre, handleAudioData_onError,
        countErrors, hasAiResponse]

/-- C9 witness: the theorem evaluated on the speaking connection with a
rejecting provider call for turn 0. -/
theorem C9_witness :
    speakingConn.hasChat = true ∧
    ((handleAudioData_run (some speakingConn) ProviderOutcome.err 0).1
       = some { speakingConn with isSpeaking := false } ∧
     countErrors (handleAudioData_run (some speakingConn) ProviderOutcome.err 0).2 = 1 ∧
     hasAiResponse (handleAudioData_run (some speakingConn) ProviderOutcome.err 0).2
       = false) :=
  ⟨rfl, C9_thm speakingConn rfl 0⟩

/-- C10 confirmed: every complete processing of one inbound frame — over all
registry states, frame shapes (malformed, any recognized tag, unknown tags)
and provider outcomes — emits at most one `error` frame; and whenever the
switch body throws (modelled by `dispatchTag` returning `Except.error`, which
happens exactly for the `ReferenceError` of the `natural_interrupt` case),
the handler's `catch` yields exactly one `error` frame with the registry
entry unchanged.  `onMessage` is total, reflecting that the `try`/`catch`
never rethrows and never closes the socket, so a processing failure by itself
cannot terminate the connection or the process. -/
theorem C10_thm (conn : Option Conn) (raw : RawMsg) (o : ProviderOutcome) (tid : Nat) :
    countErrors (onMessage conn raw o tid).2 ≤ 1 ∧
    (∀ t : InTag, dispatchTag conn t o tid = Except.error () →
      onMessage conn (RawMsg.tagged t) o tid = (conn, [Out.errorMsg])) := by
  constructor
  · rcases raw with _ | t
    · cases conn <;> simp [onMessage, parseMessage, countErrors]
    · cases t <;> rcases conn with _ | ⟨l, sp, ch, m⟩ <;> cases o <;>
        first
          | (cases sp <;> cases ch <;>
              simp [onMessage, parseMessage, dispatchTag, handleStartConversation_run,
                handleStartConversation_pre, handleAudioData_run, handleAudioData_pre,
                handleAudioData_onReply, handleAudioData_onError, handleEndConversation,
                countErrors])
          | simp [onMessage, parseMessage, dispatchTag, handleStartConversation_run,
              handleStartConversation_pre, handleAudioData_run, handleAudioData_pre,
              handleAudioData_onReply, handleAudioData_onError, handleEndConversation,
              countErrors]
  · intro t ht
    cases t <;> simp_all [dispatchTag, onMessage, parseMessage]

/-- C10 witness: the theorem evaluated on the frame whose dispatch throws
(the `natural_interrupt` case) against the started, listening connection. -/
theorem C10_witness :
    countErrors (onMessage (some activeConn) (RawMsg.tagged InTag.naturalInterrupt)
      ProviderOutcome.ok 0).2 ≤ 1 ∧
    onMessage (some activeConn) (RawMsg.tagged InTag.naturalInterrupt)
      ProviderOutcome.ok 0 = (some activeConn, [Out.errorMsg]) :=
  ⟨(C10_thm (some activeConn) (RawMsg.tagged InTag.naturalInterrupt)
      ProviderOutcome.ok 0).1,
   (C10_thm (some activeConn) (RawMsg.tagged InTag.naturalInterrupt)
      ProviderOutcome.ok 0).2 InTag.naturalInterrupt rfl⟩
